import Mathlib

/-!
Verification of the core game engine of the `Guess_the_number` repository
(`src/js/leaderboard.js`, module `Game`).  The engine state and each public
operation are embedded as Lean definitions; random inputs (the secret drawn at
reset, the hint position) are passed explicitly as oracle parameters, and the
recurring one-second timer callback is modelled as an explicit `tick` step that
only fires while an interval handle is live (`timerActive`).
-/

set_option maxHeartbeats 1000000
set_option linter.unusedVariables false

namespace Game

/-- A stored guess record (`guessEntry` in `makeGuess`).  The wall-clock
`time` field of the original is display-only and omitted. -/
structure GuessEntry where
  attempt : Nat
  sequence : String
  exact : Nat
  partCount : Nat
deriving Repr, DecidableEq

/-- The private variables of the `Game` module.  `timerActive` models whether
`timerInterval` holds a live interval handle.  `timerDuration` and `timeLeft`
are JavaScript numbers that the code may drive below zero, hence `Int`. -/
structure GameState where
  secret : String
  attempts : Nat
  maxAttempts : Nat
  gameOver : Bool
  guesses : List GuessEntry
  hintsUsed : Nat
  maxHints : Nat
  difficulty : String
  timerMode : Bool
  timerDuration : Int
  timerActive : Bool
  timeLeft : Int
deriving Repr, DecidableEq

/-- Initial values of the module-level variables. -/
def initState : GameState :=
  { secret := ""
    attempts := 0
    maxAttempts := 15
    gameOver := false
    guesses := []
    hintsUsed := 0
    maxHints := 3
    difficulty := "medium"
    timerMode := false
    timerDuration := 0
    timerActive := false
    timeLeft := 0 }

/-- Pairs of secret and guess characters walked by the `for (i < 4)` loop of
`analyzeGuess` (both inputs have length 4 at every call site). -/
def pairsOf (secret guess : String) : List (Char × Char) :=
  secret.data.zip guess.data

/-- Leftover secret digits at the non-exact positions (the `targetFreq`
multiset of `analyzeGuess`). -/
def targetLeft (secret guess : String) : List Char :=
  ((pairsOf secret guess).filter (fun p => !(p.1 == p.2))).map Prod.fst

/-- Leftover guess digits at the non-exact positions (the `guessFreq`
multiset of `analyzeGuess`). -/
def guessLeft (secret guess : String) : List Char :=
  ((pairsOf secret guess).filter (fun p => !(p.1 == p.2))).map Prod.snd

/-- `analyzeGuess`: exact matches positionally, then partial credit summed per
distinct leftover guess digit as `min(guess count, secret count)`.  The
JavaScript iterates the keys of the `guessFreq` map; `List.dedup` enumerates
the same set of distinct digits (iteration order differs, the sum does not).
Digits absent from `targetFreq` contribute `min(count, 0) = 0` exactly as the
`targetFreq.has(digit)` guard does. -/
def analyzeGuess (secret guess : String) : Nat × Nat :=
  let exact := (pairsOf secret guess).countP (fun p => p.1 == p.2)
  let gl := guessLeft secret guess
  let tl := targetLeft secret guess
  let pc := (gl.dedup.map (fun d => min (gl.count d) (tl.count d))).sum
  (exact, pc)

/-- The ten ASCII decimal digit characters. -/
def digitChars : List Char := ['0', '1', '2', '3', '4', '5', '6', '7', '8', '9']

/-- Modelled from the spec wording for the matching algorithm: `exact` is the
count of positions `i` with `S[i] == G[i]`. -/
def specExact (s g : String) : Nat :=
  ((List.range 4).filter (fun i => s.data.getD i '?' == g.data.getD i '!')).length

/-- Modelled from the spec wording: the secret digits at the non-exact
positions. -/
def specSecretLeft (s g : String) : List Char :=
  ((List.range 4).filter (fun i => !(s.data.getD i '?' == g.data.getD i '!'))).map
    (fun i => s.data.getD i '?')

/-- Modelled from the spec wording: the guess digits at the non-exact
positions. -/
def specGuessLeft (s g : String) : List Char :=
  ((List.range 4).filter (fun i => !(s.data.getD i '?' == g.data.getD i '!'))).map
    (fun i => g.data.getD i '!')

/-- Modelled from the spec wording: the sum over each distinct digit value of
`min(count in leftover secret, count in leftover guess)`. -/
def specPartCount (s g : String) : Nat :=
  (digitChars.map
    (fun d => min ((specSecretLeft s g).count d) ((specGuessLeft s g).count d))).sum

/-- The `/^\d{4}$/` format test of `makeGuess`. -/
def isFourDigits (g : String) : Bool :=
  g.data.length == 4 && g.data.all (fun c => c.isDigit)

/-- `calculateScore`: reads `hintsUsed`, `timerMode` and `timeLeft` from the
module state; the `exactMatches` argument is accepted but never read. -/
def calculateScore (s : GameState) (attemptsUsed : Nat) (exactMatches : Nat) : Int :=
  let baseScore : Int := 1000
  let attemptPenalty : Int := (attemptsUsed : Int) * 50
  let hintPenalty : Int := (s.hintsUsed : Int) * 100
  let timeBonus : Int := if s.timerMode = true ∧ 0 < s.timeLeft then s.timeLeft * 10 else 0
  let finalScore : Int := baseScore - attemptPenalty - hintPenalty + timeBonus
  max finalScore 100

/-- Payloads handed to the `onGameEnd` callback. -/
inductive GameEndEvent where
  | win (attempts : Nat) (score : Int)
  | lose (secret : String)
  | timeout
  | attemptsOut
deriving Repr, DecidableEq

/-- Callback invocations emitted by an operation, in order: `onTimerTick`,
`onGameEnd`, `onUpdate` (state change). -/
inductive EngineEvent where
  | timerTick (t : Int)
  | gameEnd (e : GameEndEvent)
  | stateChange
deriving Repr, DecidableEq

/-- The `{success, message, ...}` result object returned by `makeGuess`;
fields absent from a given return site keep their defaults. -/
structure GuessResult where
  success : Bool
  message : String
  gameWon : Bool := false
  feedback : Option (Nat × Nat) := none
  score : Option Int := none
deriving Repr, DecidableEq

/-- The success message interpolated by `makeGuess`. -/
def attemptMessage (attempts exact pc : Nat) : String :=
  "Attempt " ++ toString attempts ++ ": " ++ toString exact ++ " exact, "
    ++ toString pc ++ " partial"

/-- `makeGuess`, returning the new module state, the result object, and the
callbacks fired (in order). -/
def makeGuess (s : GameState) (guess : String) : GameState × GuessResult × List EngineEvent :=
  if s.gameOver = true then
    (s, { success := false, message := "Game over. Start new game." }, [])
  else if s.maxAttempts ≤ s.attempts then
    ({ s with gameOver := true },
      { success := false, message := "Maximum attempts reached!" },
      [EngineEvent.gameEnd GameEndEvent.attemptsOut])
  else if isFourDigits guess = false then
    (s, { success := false, message := "Enter exactly 4 digits!" }, [])
  else
    let analysis := analyzeGuess s.secret guess
    let newAttempts := s.attempts + 1
    let entry : GuessEntry :=
      { attempt := newAttempts, sequence := guess,
        exact := analysis.1, partCount := analysis.2 }
    let s1 := { s with attempts := newAttempts, guesses := entry :: s.guesses }
    let score := calculateScore s1 newAttempts analysis.1
    if analysis.1 = 4 then
      let s2 := { s1 with gameOver := true, timerActive := false }
      (s2,
        { success := true, gameWon := true,
          message := "🎉 ACCESS GRANTED! You win! 🎉", score := some score },
        [EngineEvent.gameEnd (GameEndEvent.win newAttempts score), EngineEvent.stateChange])
    else if s1.maxAttempts ≤ newAttempts then
      let s2 := { s1 with gameOver := true, timerActive := false }
      (s2,
        { success := true, feedback := some analysis,
          message := attemptMessage newAttempts analysis.1 analysis.2 },
        [EngineEvent.gameEnd (GameEndEvent.lose s.secret), EngineEvent.stateChange])
    else
      (s1,
        { success := true, feedback := some analysis,
          message := attemptMessage newAttempts analysis.1 analysis.2 },
        [EngineEvent.stateChange])

/-- `resetTimer`: clears any live interval handle, then, if `timerMode` is on,
reloads `timeLeft` from `timerDuration` and starts the interval
(`startTimer`). -/
def resetTimer (s : GameState) : GameState :=
  let s1 := { s with timerActive := false }
  if s1.timerMode = true then
    { s1 with timeLeft := s1.timerDuration, timerActive := true }
  else s1

/-- The fresh secret of `reset`: `Math.floor(Math.random()*10000)` rendered in
decimal and left-padded with zeros to four characters; the random draw is the
oracle parameter `n`, reduced mod 10000. -/
def padSecret (n : Nat) : String :=
  let ds := (Nat.repr (n % 10000)).data
  String.mk (List.replicate (4 - ds.length) '0' ++ ds)

/-- `reset`: new secret, zeroed counters, cleared history, game reopened;
restarts the countdown when `timerMode` is on; fires `onUpdate` once. -/
def reset (s : GameState) (n : Nat) : GameState × List EngineEvent :=
  let s1 := { s with secret := padSecret n, attempts := 0, gameOver := false,
                     guesses := [], hintsUsed := 0 }
  let s2 := if s1.timerMode = true then resetTimer s1 else s1
  (s2, [EngineEvent.stateChange])

/-- The `DIFFICULTY_SETTINGS` table: `(attempts, hints)` per level. -/
def difficultySettings (level : String) : Option (Nat × Nat) :=
  if level = "easy" then some (6, 5)
  else if level = "medium" then some (15, 3)
  else if level = "hard" then some (15, 0)
  else none

/-- `setDifficulty`: no-op on an unknown level, otherwise installs the level's
budgets and performs a full `reset` (with oracle `n` for the new secret). -/
def setDifficulty (s : GameState) (level : String) (n : Nat) :
    GameState × List EngineEvent :=
  match difficultySettings level with
  | none => (s, [])
  | some (a, h) =>
      reset { s with difficulty := level, maxAttempts := a, maxHints := h } n

/-- `setTimerMode`: records the mode and duration, restarts or clears the
countdown, then performs a full `reset`. -/
def setTimerMode (s : GameState) (enabled : Bool) (seconds : Int) (n : Nat) :
    GameState × List EngineEvent :=
  let s1 := { s with timerMode := enabled, timerDuration := seconds }
  let s2 := if enabled = true then resetTimer s1 else { s1 with timerActive := false }
  reset s2 n

/-- The `{success, position, digit, remaining}` result object of `useHint`. -/
structure HintResult where
  success : Bool
  message : String := ""
  position : Option Nat := none
  digit : Option Char := none
  remaining : Option Nat := none
deriving Repr, DecidableEq

/-- `useHint`: the uniformly random position `Math.floor(Math.random()*4)` is
modelled as the oracle parameter `r` reduced mod 4. -/
def useHint (s : GameState) (r : Nat) : GameState × HintResult × List EngineEvent :=
  if s.gameOver = true then
    (s, { success := false, message := "Game is over!" }, [])
  else if s.maxHints ≤ s.hintsUsed then
    (s, { success := false, message := "No hints remaining!" }, [])
  else
    let s1 := { s with hintsUsed := s.hintsUsed + 1 }
    let pos := r % 4
    (s1,
      { success := true, position := some (pos + 1),
        digit := some (s.secret.data.getD pos ' '),
        remaining := some (s.maxHints - s1.hintsUsed) },
      [EngineEvent.stateChange])

/-- One firing of the interval callback installed by `startTimer`.  The
callback only runs while an interval handle is live; with no live handle the
step does nothing and fires nothing. -/
def tick (s : GameState) : GameState × List EngineEvent :=
  if s.timerActive = false then (s, [])
  else
    let t := s.timeLeft - 1
    if t ≤ 0 then
      ({ s with timeLeft := t, gameOver := true, timerActive := false },
        [EngineEvent.timerTick t, EngineEvent.gameEnd GameEndEvent.timeout,
          EngineEvent.stateChange])
    else
      ({ s with timeLeft := t }, [EngineEvent.timerTick t, EngineEvent.stateChange])

/-- `n` consecutive interval firings, accumulating the callbacks fired. -/
def ticks : Nat → GameState → GameState × List EngineEvent
  | 0, s => (s, [])
  | n + 1, s =>
      let p1 := tick s
      let p2 := ticks n p1.1
      (p2.1, p1.2 ++ p2.2)

/-- The snapshot object built by `getState`. -/
structure StateSnapshot where
  secret : String
  attempts : Nat
  maxAttempts : Nat
  gameOver : Bool
  guesses : List GuessEntry
  hintsUsed : Nat
  maxHints : Nat
  remainingAttempts : Int
  remainingHints : Int
  difficulty : String
  timerMode : Bool
  timeLeft : Int
  timerDuration : Int
  score : Int
deriving Repr, DecidableEq

/-- `getState`: the secret is replaced by the masked literal `"????"` until
the game is over; `guesses` is copied (`[...guesses]`), which is identity for
an immutable list. -/
def getState (s : GameState) : StateSnapshot :=
  { secret := if s.gameOver = true then s.secret else "????"
    attempts := s.attempts
    maxAttempts := s.maxAttempts
    gameOver := s.gameOver
    guesses := s.guesses
    hintsUsed := s.hintsUsed
    maxHints := s.maxHints
    remainingAttempts := (s.maxAttempts : Int) - (s.attempts : Int)
    remainingHints := (s.maxHints : Int) - (s.hintsUsed : Int)
    difficulty := s.difficulty
    timerMode := s.timerMode
    timeLeft := s.timeLeft
    timerDuration := s.timerDuration
    score := calculateScore s s.attempts 0 }

/-- States reachable through the engine's command API after `init` (which
performs the first `reset`).  `P` constrains the `durationSeconds` argument a
caller may pass to `setTimerMode`; the other oracle inputs are unrestricted. -/
inductive Reachable (P : Int → Prop) : GameState → Prop where
  | ofInit (n : Nat) : Reachable P (reset initState n).1
  | ofReset (s : GameState) (n : Nat) :
      Reachable P s → Reachable P (reset s n).1
  | ofSetDifficulty (s : GameState) (level : String) (n : Nat) :
      Reachable P s → Reachable P (setDifficulty s level n).1
  | ofSetTimerMode (s : GameState) (enabled : Bool) (seconds : Int) (n : Nat) :
      Reachable P s → P seconds → Reachable P (setTimerMode s enabled seconds n).1
  | ofMakeGuess (s : GameState) (g : String) :
      Reachable P s → Reachable P (makeGuess s g).1
  | ofUseHint (s : GameState) (r : Nat) :
      Reachable P s → Reachable P (useHint s r).1
  | ofTick (s : GameState) :
      Reachable P s → Reachable P (tick s).1

/-- The attempt numbers `[n, n-1, ..., 1]` carried by the guess history,
newest first. -/
def countdownFrom : Nat → List Nat
  | 0 => []
  | n + 1 => (n + 1) :: countdownFrom n

/-- Inductive invariant on the attempt/hint budgets and the guess history. -/
def Inv (s : GameState) : Prop :=
  s.attempts ≤ s.maxAttempts ∧
  s.hintsUsed ≤ s.maxHints ∧
  1 ≤ s.maxAttempts ∧
  (s.gameOver = false → s.attempts < s.maxAttempts) ∧
  s.guesses.map (fun e => e.attempt) = countdownFrom s.attempts

/-- Timer invariant under non-negative `setTimerMode` durations: the duration
never goes negative and `timeLeft` never drops below `-1`. -/
def TimerInvN (s : GameState) : Prop :=
  0 ≤ s.timerDuration ∧ -1 ≤ s.timeLeft ∧ (s.timerActive = true → 0 ≤ s.timeLeft)

/-- Timer invariant under positive `setTimerMode` durations: `timeLeft` stays
non-negative. -/
def TimerInvP (s : GameState) : Prop :=
  0 ≤ s.timerDuration ∧ 0 ≤ s.timeLeft ∧ (s.timerActive = true → 1 ≤ s.timeLeft) ∧
  (s.timerMode = true → 1 ≤ s.timerDuration)

/-- Easy difficulty selected at startup with secret oracle `0` (secret
`"0000"`). -/
def easyRun0 : GameState := (setDifficulty initState "easy" 0).1

/-- Five consecutive valid non-winning guesses `"1111"` on `easyRun0`. -/
def easyRun5 : GameState :=
  (makeGuess (makeGuess (makeGuess (makeGuess
    (makeGuess easyRun0 "1111").1 "1111").1 "1111").1 "1111").1 "1111").1

/-- The sixth (final) valid non-winning guess on easy difficulty. -/
def easyRun6 : GameState := (makeGuess easyRun5 "1111").1

/-- A one-second timer enabled at startup, after its single tick (the game has
timed out). -/
def timedOutState : GameState :=
  (tick (setTimerMode (reset initState 0).1 true 1 0).1).1

/-- A five-second timer enabled at startup. -/
def fiveTimerState : GameState := (setTimerMode (reset initState 0).1 true 5 0).1

/-- A zero-second timer enabled at startup, after its single tick. -/
def zeroTimerTicked : GameState :=
  (tick (setTimerMode (reset initState 0).1 true 0 0).1).1

@[simp] lemma resetTimer_secret (s : GameState) : (resetTimer s).secret = s.secret := by
  unfold resetTimer; dsimp only; split <;> rfl

@[simp] lemma resetTimer_attempts (s : GameState) : (resetTimer s).attempts = s.attempts := by
  unfold resetTimer; dsimp only; split <;> rfl

@[simp] lemma resetTimer_maxAttempts (s : GameState) :
    (resetTimer s).maxAttempts = s.maxAttempts := by
  unfold resetTimer; dsimp only; split <;> rfl

@[simp] lemma resetTimer_gameOver (s : GameState) : (resetTimer s).gameOver = s.gameOver := by
  unfold resetTimer; dsimp only; split <;> rfl

@[simp] lemma resetTimer_guesses (s : GameState) : (resetTimer s).guesses = s.guesses := by
  unfold resetTimer; dsimp only; split <;> rfl

@[simp] lemma resetTimer_hintsUsed (s : GameState) : (resetTimer s).hintsUsed = s.hintsUsed := by
  unfold resetTimer; dsimp only; split <;> rfl

@[simp] lemma resetTimer_maxHints (s : GameState) : (resetTimer s).maxHints = s.maxHints := by
  unfold resetTimer; dsimp only; split <;> rfl

@[simp] lemma resetTimer_difficulty (s : GameState) :
    (resetTimer s).difficulty = s.difficulty := by
  unfold resetTimer; dsimp only; split <;> rfl

@[simp] lemma resetTimer_timerMode (s : GameState) : (resetTimer s).timerMode = s.timerMode := by
  unfold resetTimer; dsimp only; split <;> rfl

@[simp] lemma resetTimer_timerDuration (s : GameState) :
    (resetTimer s).timerDuration = s.timerDuration := by
  unfold resetTimer; dsimp only; split <;> rfl

@[simp] lemma reset_secret (s : GameState) (n : Nat) :
    (reset s n).1.secret = padSecret n := by
  unfold reset; dsimp only; split <;> simp

@[simp] lemma reset_attempts (s : GameState) (n : Nat) : (reset s n).1.attempts = 0 := by
  unfold reset; dsimp only; split <;> simp

@[simp] lemma reset_maxAttempts (s : GameState) (n : Nat) :
    (reset s n).1.maxAttempts = s.maxAttempts := by
  unfold reset; dsimp only; split <;> simp

@[simp] lemma reset_gameOver (s : GameState) (n : Nat) :
    (reset s n).1.gameOver = false := by
  unfold reset; dsimp only; split <;> simp

@[simp] lemma reset_guesses (s : GameState) (n : Nat) : (reset s n).1.guesses = [] := by
  unfold reset; dsimp only; split <;> simp

@[simp] lemma reset_hintsUsed (s : GameState) (n : Nat) : (reset s n).1.hintsUsed = 0 := by
  unfold reset; dsimp only; split <;> simp

@[simp] lemma reset_maxHints (s : GameState) (n : Nat) :
    (reset s n).1.maxHints = s.maxHints := by
  unfold reset; dsimp only; split <;> simp

@[simp] lemma reset_difficulty (s : GameState) (n : Nat) :
    (reset s n).1.difficulty = s.difficulty := by
  unfold reset; dsimp only; split <;> simp

@[simp] lemma reset_timerMode (s : GameState) (n : Nat) :
    (reset s n).1.timerMode = s.timerMode := by
  unfold reset; dsimp only; split <;> simp

@[simp] lemma reset_timerDuration (s : GameState) (n : Nat) :
    (reset s n).1.timerDuration = s.timerDuration := by
  unfold reset; dsimp only; split <;> simp

lemma inv_reset (s : GameState) (n : Nat) (h : 1 ≤ s.maxAttempts) :
    Inv (reset s n).1 := by
  refine ⟨by simp, by simp, by simp [h], ?_, by simp [countdownFrom]⟩
  intro _
  simpa using h

lemma inv_initState : 1 ≤ initState.maxAttempts := by
  norm_num [initState]

lemma inv_setDifficulty (s : GameState) (level : String) (n : Nat) (h : Inv s) :
    Inv (setDifficulty s level n).1 := by
  unfold setDifficulty
  rcases hd : difficultySettings level with _ | ⟨a, b⟩
  · exact h
  · dsimp only
    apply inv_reset
    unfold difficultySettings at hd
    split_ifs at hd <;> simp_all <;> omega

lemma inv_setTimerMode (s : GameState) (enabled : Bool) (seconds : Int) (n : Nat)
    (h : Inv s) : Inv (setTimerMode s enabled seconds n).1 := by
  have h3 := h.2.2.1
  unfold setTimerMode
  cases enabled <;> dsimp only <;> apply inv_reset <;> simpa [resetTimer] using h3

lemma inv_makeGuess (s : GameState) (g : String) (h : Inv s) :
    Inv (makeGuess s g).1 := by
  obtain ⟨h1, h2, h3, h4, h5⟩ := h
  unfold makeGuess
  dsimp only
  split_ifs with hgo hatt hfmt hwin hlose
  · exact ⟨h1, h2, h3, h4, h5⟩
  · exact ⟨h1, h2, h3, by simp, h5⟩
  · exact ⟨h1, h2, h3, h4, h5⟩
  · refine ⟨?_, h2, h3, by simp, ?_⟩
    · have := h4 (by simpa using hgo)
      simpa using this
    · simpa [countdownFrom] using h5
  · refine ⟨?_, h2, h3, by simp, ?_⟩
    · have := h4 (by simpa using hgo)
      simpa using this
    · simpa [countdownFrom] using h5
  · refine ⟨?_, h2, h3, ?_, ?_⟩
    · have := h4 (by simpa using hgo)
      simpa using this
    · intro _
      simpa using Nat.lt_of_not_le (by simpa using hlose)
    · simpa [countdownFrom] using h5

lemma inv_useHint (s : GameState) (r : Nat) (h : Inv s) : Inv (useHint s r).1 := by
  obtain ⟨h1, h2, h3, h4, h5⟩ := h
  unfold useHint
  dsimp only
  split_ifs with hgo hh
  · exact ⟨h1, h2, h3, h4, h5⟩
  · exact ⟨h1, h2, h3, h4, h5⟩
  · exact ⟨h1, by simpa using Nat.lt_of_not_le (by simpa using hh), h3, h4, h5⟩

lemma inv_tick (s : GameState) (h : Inv s) : Inv (tick s).1 := by
  obtain ⟨h1, h2, h3, h4, h5⟩ := h
  unfold tick
  dsimp only
  split_ifs with ha ht
  · exact ⟨h1, h2, h3, h4, h5⟩
  · exact ⟨h1, h2, h3, by simp, h5⟩
  · exact ⟨h1, h2, h3, h4, h5⟩

/-- Every state reachable through the command API satisfies `Inv`. -/
lemma inv_of_reachable {P : Int → Prop} {s : GameState} (h : Reachable P s) : Inv s := by
  induction h with
  | ofInit n => exact inv_reset _ _ inv_initState
  | ofReset s n hs ih => exact inv_reset _ _ ih.2.2.1
  | ofSetDifficulty s level n hs ih => exact inv_setDifficulty _ _ _ ih
  | ofSetTimerMode s enabled seconds n hs hP ih => exact inv_setTimerMode _ _ _ _ ih
  | ofMakeGuess s g hs ih => exact inv_makeGuess _ _ ih
  | ofUseHint s r hs ih => exact inv_useHint _ _ ih
  | ofTick s hs ih => exact inv_tick _ ih

@[simp] lemma reset_timerActive (s : GameState) (n : Nat) :
    (reset s n).1.timerActive = (if s.timerMode = true then true else s.timerActive) := by
  unfold reset resetTimer
  dsimp only
  split_ifs <;> rfl

@[simp] lemma reset_timeLeft (s : GameState) (n : Nat) :
    (reset s n).1.timeLeft = (if s.timerMode = true then s.timerDuration else s.timeLeft) := by
  unfold reset resetTimer
  dsimp only
  split_ifs <;> rfl

lemma timerInvN_reset (s : GameState) (n : Nat) (h : TimerInvN s) :
    TimerInvN (reset s n).1 := by
  obtain ⟨h1, h2, h3⟩ := h
  refine ⟨by simpa using h1, ?_, ?_⟩
  · simp only [reset_timeLeft]
    split_ifs <;> omega
  · simp only [reset_timerActive, reset_timeLeft]
    split_ifs
    · intro _
      omega
    · exact h3

lemma timerInvN_makeGuess (s : GameState) (g : String) (h : TimerInvN s) :
    TimerInvN (makeGuess s g).1 := by
  obtain ⟨h1, h2, h3⟩ := h
  unfold makeGuess
  dsimp only
  split_ifs <;> simp_all [TimerInvN]

lemma timerInvN_tick (s : GameState) (h : TimerInvN s) : TimerInvN (tick s).1 := by
  obtain ⟨h1, h2, h3⟩ := h
  unfold tick
  dsimp only
  split_ifs with ha ht
  · exact ⟨h1, h2, h3⟩
  · have h4 := h3 (by simpa using ha)
    exact ⟨h1, by dsimp only; omega, fun hx => by simp at hx⟩
  · have h4 := h3 (by simpa using ha)
    exact ⟨h1, by dsimp only; omega, fun hx => by dsimp only; omega⟩

/-- Under non-negative `setTimerMode` durations, the duration stays
non-negative and `timeLeft` never drops below `-1`. -/
lemma timerInvN_of_reachable {s : GameState} (h : Reachable (fun d => 0 ≤ d) s) :
    TimerInvN s := by
  induction h with
  | ofInit n =>
      apply timerInvN_reset
      exact ⟨by norm_num [initState], by norm_num [initState], by norm_num [initState]⟩
  | ofReset s n hs ih => exact timerInvN_reset _ _ ih
  | ofSetDifficulty s level n hs ih =>
      unfold setDifficulty
      rcases hd : difficultySettings level with _ | ⟨a, b⟩
      · exact ih
      · exact timerInvN_reset _ _ ih
  | ofSetTimerMode s enabled seconds n hs hP ih =>
      obtain ⟨h1, h2, h3⟩ := ih
      unfold setTimerMode
      dsimp only
      apply timerInvN_reset
      cases enabled
      · exact ⟨by simpa using hP, by simpa using h2, fun hx => by simp at hx⟩
      · refine ⟨?_, ?_, ?_⟩ <;> simp [resetTimer] <;> omega
  | ofMakeGuess s g hs ih => exact timerInvN_makeGuess _ _ ih
  | ofUseHint s r hs ih =>
      obtain ⟨h1, h2, h3⟩ := ih
      unfold useHint
      dsimp only
      split_ifs <;> exact ⟨h1, h2, h3⟩
  | ofTick s hs ih => exact timerInvN_tick _ ih

lemma timerInvP_reset (s : GameState) (n : Nat) (h : TimerInvP s) :
    TimerInvP (reset s n).1 := by
  obtain ⟨h1, h2, h3, h4⟩ := h
  refine ⟨by simpa using h1, ?_, ?_, by simpa using h4⟩
  · simp only [reset_timeLeft]
    split_ifs with hm
    · have := h4 hm
      omega
    · omega
  · simp only [reset_timerActive, reset_timeLeft]
    split_ifs with hm
    · intro _
      exact h4 hm
    · exact h3

lemma timerInvP_makeGuess (s : GameState) (g : String) (h : TimerInvP s) :
    TimerInvP (makeGuess s g).1 := by
  obtain ⟨h1, h2, h3, h4⟩ := h
  unfold makeGuess
  dsimp only
  split_ifs <;> simp_all [TimerInvP]

lemma timerInvP_tick (s : GameState) (h : TimerInvP s) : TimerInvP (tick s).1 := by
  obtain ⟨h1, h2, h3, h4⟩ := h
  unfold tick
  dsimp only
  split_ifs with ha ht
  · exact ⟨h1, h2, h3, h4⟩
  · have h5 := h3 (by simpa using ha)
    exact ⟨h1, by dsimp only; omega, fun hx => by simp at hx, by simpa using h4⟩
  · have h5 := h3 (by simpa using ha)
    exact ⟨h1, by dsimp only; omega, fun hx => by dsimp only; omega, by simpa using h4⟩

/-- Under positive `setTimerMode` durations, `timeLeft` stays non-negative. -/
lemma timerInvP_of_reachable {s : GameState} (h : Reachable (fun d => 1 ≤ d) s) :
    TimerInvP s := by
  induction h with
  | ofInit n =>
      apply timerInvP_reset
      refine ⟨?_, ?_, ?_, ?_⟩ <;> norm_num [initState]
  | ofReset s n hs ih => exact timerInvP_reset _ _ ih
  | ofSetDifficulty s level n hs ih =>
      unfold setDifficulty
      rcases hd : difficultySettings level with _ | ⟨a, b⟩
      · exact ih
      · exact timerInvP_reset _ _ ih
  | ofSetTimerMode s enabled seconds n hs hP ih =>
      obtain ⟨h1, h2, h3, h4⟩ := ih
      unfold setTimerMode
      dsimp only
      apply timerInvP_reset
      cases enabled
      · exact ⟨by simpa using by omega, by simpa using h2,
          fun hx => by simp at hx, fun hx => by simp at hx⟩
      · refine ⟨?_, ?_, ?_, ?_⟩ <;> simp [resetTimer] <;> omega
  | ofMakeGuess s g hs ih => exact timerInvP_makeGuess _ _ ih
  | ofUseHint s r hs ih =>
      obtain ⟨h1, h2, h3, h4⟩ := ih
      unfold useHint
      dsimp only
      split_ifs <;> exact ⟨h1, h2, h3, h4⟩
  | ofTick s hs ih => exact timerInvP_tick _ ih

lemma countdownFrom_length (n : Nat) : (countdownFrom n).length = n := by
  induction n <;> simp [countdownFrom, *]

lemma makeGuess_of_gameOver (s : GameState) (g : String) (h : s.gameOver = true) :
    makeGuess s g
      = (s, { success := false, message := "Game over. Start new game." }, []) := by
  simp [makeGuess, h]

lemma makeGuess_invalid (s : GameState) (g : String) (h1 : s.gameOver = false)
    (h2 : ¬ s.maxAttempts ≤ s.attempts) (h3 : isFourDigits g = false) :
    makeGuess s g
      = (s, { success := false, message := "Enter exactly 4 digits!" }, []) := by
  simp [makeGuess, h1, h2, h3]

/-- C2: `calculateScore(attemptsUsed, exactMatches)` returns
`max(100, 1000 − 50·attemptsUsed − 100·hintsUsed + timeBonus)` where
`timeBonus = 10·timeLeft` exactly when `timerMode` is active and `timeLeft > 0`
and `0` otherwise; the result ignores the `exactMatches` argument and never
drops below the floor of 100. -/
theorem calculateScore_formula (s : GameState) (a e1 e2 : Nat) :
    calculateScore s a e1
        = max 100 (1000 - 50 * (a : Int) - 100 * (s.hintsUsed : Int) +
            (if s.timerMode = true ∧ 0 < s.timeLeft then 10 * s.timeLeft else 0)) ∧
    calculateScore s a e1 = calculateScore s a e2 ∧
    100 ≤ calculateScore s a e1 := by
  refine ⟨?_, rfl, ?_⟩
  · unfold calculateScore
    dsimp only
    rw [max_comm]
    congr 1
    split_ifs <;> ring
  · unfold calculateScore
    dsimp only
    exact le_max_right _ _

/-- C5: `getState` masks the secret as the literal `"????"` whenever the game
is not over, reveals the true secret exactly when it is over, and hence any
two mid-game states produce identical snapshot secrets (no mid-game leak). -/
theorem getState_redacts_secret (s1 s2 : GameState) :
    (s1.gameOver = false → (getState s1).secret = "????") ∧
    (s1.gameOver = true → (getState s1).secret = s1.secret) ∧
    (s1.gameOver = false → s2.gameOver = false →
      (getState s1).secret = (getState s2).secret) := by
  refine ⟨fun h => by simp [getState, h], fun h => by simp [getState, h],
    fun h1 h2 => by simp [getState, h1, h2]⟩

/-- C6: `useHint` fails with the game-over error when `gameOver`, fails with
the no-hints-remaining error when `hintsUsed ≥ maxHints` without mutating
state, and otherwise increments `hintsUsed`, returns a 1-based position in
`[1,4]`, the secret digit at that position, and
`remaining = maxHints − hintsUsed` (post-increment). -/
theorem useHint_budget (s : GameState) (r : Nat) :
    (s.gameOver = true →
      useHint s r = (s, { success := false, message := "Game is over!" }, [])) ∧
    (s.gameOver = false → s.maxHints ≤ s.hintsUsed →
      useHint s r = (s, { success := false, message := "No hints remaining!" }, [])) ∧
    (s.gameOver = false → s.hintsUsed < s.maxHints →
      (useHint s r).1 = { s with hintsUsed := s.hintsUsed + 1 } ∧
      (useHint s r).2.1.position = some (r % 4 + 1) ∧
      1 ≤ r % 4 + 1 ∧ r % 4 + 1 ≤ 4 ∧
      (useHint s r).2.1.digit = some (s.secret.data.getD (r % 4) ' ') ∧
      (useHint s r).2.1.remaining = some (s.maxHints - (s.hintsUsed + 1))) := by
  refine ⟨fun h => by simp [useHint, h], fun h1 h2 => by simp [useHint, h1, h2],
    fun h1 h2 => ?_⟩
  have hn : ¬ s.maxHints ≤ s.hintsUsed := by omega
  have hm : r % 4 < 4 := Nat.mod_lt r (by norm_num)
  refine ⟨by simp [useHint, h1, hn], by simp [useHint, h1, hn], by omega, by omega,
    by simp [useHint, h1, hn], by simp [useHint, h1, hn]⟩

/-- C4: `makeGuess` validates in short-circuit order on every reachable state:
a finished game fails with the game-over error and no state change; otherwise
a non-4-digit input fails with the invalid-format error, with no state
mutation and no attempt consumed. -/
theorem makeGuess_validation_order (P : Int → Prop) (s : GameState) (g : String)
    (hr : Reachable P s) :
    (s.gameOver = true →
      makeGuess s g
        = (s, { success := false, message := "Game over. Start new game." }, [])) ∧
    (s.gameOver = false → isFourDigits g = false →
      makeGuess s g
        = (s, { success := false, message := "Enter exactly 4 digits!" }, [])) := by
  refine ⟨fun h => makeGuess_of_gameOver s g h, fun h hf => ?_⟩
  have hlt := (inv_of_reachable hr).2.2.2.1 h
  exact makeGuess_invalid s g h (by omega) hf

/-- C7: on every reachable state, `attempts ≤ maxAttempts`,
`hintsUsed ≤ maxHints`, and mid-game `attempts < maxAttempts`; consequently
the defensive attempts-exhausted branch of `makeGuess` never fires (no
reachable mid-game call ever emits the `attemptsOut` game-end event). -/
theorem attempts_hints_invariant (P : Int → Prop) (s : GameState)
    (h : Reachable P s) :
    s.attempts ≤ s.maxAttempts ∧ s.hintsUsed ≤ s.maxHints ∧
    (s.gameOver = false → s.attempts < s.maxAttempts) ∧
    (∀ g : String,
      EngineEvent.gameEnd GameEndEvent.attemptsOut ∉ (makeGuess s g).2.2) := by
  obtain ⟨h1, h2, h3, h4, h5⟩ := inv_of_reachable h
  refine ⟨h1, h2, h4, ?_⟩
  intro g
  by_cases hov : s.gameOver = true
  · simp [makeGuess_of_gameOver s g hov]
  · have hov2 : s.gameOver = false := by simpa using hov
    have hlt := h4 hov2
    unfold makeGuess
    dsimp only
    split_ifs with hgo hatt hfmt hwin hlose <;> simp_all <;> omega

/-- C8: while the countdown is live, each tick decrements `timeLeft`, fires
`onTimerTick` with the new value and finishes with `onStateChange`; the tick
on which `timeLeft` reaches `≤ 0` sets `gameOver`, cancels the schedule and
fires `onGameEnd('timeout')`; concretely, with a 5-second timer and no
guesses, after 5 ticks the game is over, `'timeout'` fired exactly once, and
a further tick does nothing. -/
theorem timer_tick_spec :
    (∀ s : GameState, s.timerActive = true →
      (tick s).1.timeLeft = s.timeLeft - 1 ∧
      (tick s).2 = [EngineEvent.timerTick (s.timeLeft - 1)] ++
        (if s.timeLeft - 1 ≤ 0 then [EngineEvent.gameEnd GameEndEvent.timeout] else []) ++
        [EngineEvent.stateChange] ∧
      (s.timeLeft - 1 ≤ 0 →
        (tick s).1.gameOver = true ∧ (tick s).1.timerActive = false)) ∧
    ((ticks 5 fiveTimerState).1.gameOver = true ∧
      (ticks 5 fiveTimerState).2.count (EngineEvent.gameEnd GameEndEvent.timeout) = 1 ∧
      tick (ticks 5 fiveTimerState).1 = ((ticks 5 fiveTimerState).1, [])) := by
  constructor
  · intro s ha
    unfold tick
    simp only [ha]
    split_ifs with ht <;> simp_all
  · refine ⟨by decide, by decide, by decide⟩

/-- C10: on every reachable state the guess history has exactly `attempts`
records carrying attempt numbers `attempts, attempts−1, ..., 1` newest first;
each successful `makeGuess` prepends exactly one record numbered with the
post-increment attempt count; and `reset`, `setTimerMode`, and `setDifficulty`
on a known level all restore `attempts = 0` and an empty history together. -/
theorem guesses_match_attempts :
    (∀ (P : Int → Prop) (s : GameState), Reachable P s →
      s.guesses.length = s.attempts ∧
      s.guesses.map (fun e => e.attempt) = countdownFrom s.attempts) ∧
    (∀ (s : GameState) (g : String), ((makeGuess s g).2.1).success = true →
      (makeGuess s g).1.attempts = s.attempts + 1 ∧
      (makeGuess s g).1.guesses.length = s.guesses.length + 1 ∧
      ((makeGuess s g).1.guesses.head?.map (fun e => e.attempt))
          = some ((makeGuess s g).1.attempts) ∧
      (makeGuess s g).1.guesses.tail = s.guesses) ∧
    (∀ (s : GameState) (n : Nat),
      (reset s n).1.attempts = 0 ∧ (reset s n).1.guesses = []) ∧
    (∀ (s : GameState) (e : Bool) (d : Int) (n : Nat),
      (setTimerMode s e d n).1.attempts = 0 ∧ (setTimerMode s e d n).1.guesses = []) ∧
    (∀ (s : GameState) (lvl : String) (n : Nat), difficultySettings lvl ≠ none →
      (setDifficulty s lvl n).1.attempts = 0 ∧ (setDifficulty s lvl n).1.guesses = []) := by
  refine ⟨?_, ?_, ?_, ?_, ?_⟩
  · intro P s hr
    have h5 := (inv_of_reachable hr).2.2.2.2
    refine ⟨?_, h5⟩
    have := congrArg List.length h5
    simpa [countdownFrom_length] using this
  · intro s g hsucc
    unfold makeGuess at *
    dsimp only at *
    split_ifs at * <;> simp_all
  · intro s n
    simp
  · intro s e d n
    unfold setTimerMode
    dsimp only
    simp
  · intro s lvl n hd
    unfold setDifficulty
    rcases hs : difficultySettings lvl with _ | ⟨a, b⟩
    · exact absurd hs hd
    · simp

/-- C3 (amended): after the final (`maxAttempts`-th) valid non-winning guess
the game is over and `onGameEnd` fires `'lose'` with the true secret; a
further `makeGuess` call then fails with the game-over error (`GameOverError`,
"Game over. Start new game.") — not `AttemptsExhaustedError` — leaving the
state, and in particular `guesses`, unchanged. -/
theorem lose_on_final_attempt (s : GameState) (g : String)
    (hov : s.gameOver = false) (hatt : s.attempts + 1 = s.maxAttempts)
    (hfmt : isFourDigits g = true) (hnw : (analyzeGuess s.secret g).1 ≠ 4) :
    (makeGuess s g).1.gameOver = true ∧
    (makeGuess s g).2.2
        = [EngineEvent.gameEnd (GameEndEvent.lose s.secret), EngineEvent.stateChange] ∧
    (∀ g2 : String, makeGuess (makeGuess s g).1 g2
        = ((makeGuess s g).1,
            { success := false, message := "Game over. Start new game." }, [])) := by
  have hle : ¬ s.maxAttempts ≤ s.attempts := by omega
  have hle2 : s.maxAttempts ≤ s.attempts + 1 := by omega
  have hover : (makeGuess s g).1.gameOver = true := by
    unfold makeGuess
    dsimp only
    split_ifs <;> simp_all
  refine ⟨hover, ?_, fun g2 => makeGuess_of_gameOver _ g2 hover⟩
  unfold makeGuess
  dsimp only
  split_ifs <;> simp_all

/-- C3 counterexample: on easy difficulty (six attempts), after exactly six
valid non-winning guesses the game is over and the seventh call fails with
the game-over error, not the attempts-exhausted error, and appends nothing. -/
theorem attempts_error_after_budget_counterexample :
    easyRun6.gameOver = true ∧ easyRun6.attempts = easyRun6.maxAttempts ∧
    (makeGuess easyRun6 "2222").2.1.message = "Game over. Start new game." ∧
    ¬ (makeGuess easyRun6 "2222").2.1.message = "Maximum attempts reached!" ∧
    (makeGuess easyRun6 "2222").2.2 = [] ∧
    (makeGuess easyRun6 "2222").1.guesses = easyRun6.guesses := by
  refine ⟨by decide, by decide, by decide, by decide, by decide, by decide⟩

/-- C9 (amended): with every `setTimerMode` duration non-negative, the
duration stays non-negative and `timeLeft` never drops below `-1`; with every
duration at least 1, `timeLeft` stays non-negative throughout. -/
theorem timer_bounds (s : GameState) :
    (Reachable (fun d => 0 ≤ d) s → 0 ≤ s.timerDuration ∧ -1 ≤ s.timeLeft) ∧
    (Reachable (fun d => 1 ≤ d) s → 0 ≤ s.timeLeft) :=
  ⟨fun h => ⟨(timerInvN_of_reachable h).1, (timerInvN_of_reachable h).2.1⟩,
    fun h => (timerInvP_of_reachable h).2.1⟩

/-- C9 counterexample: enabling the timer with `durationSeconds = 0` (a
non-negative duration) and letting one tick fire reaches a state whose
`timeLeft` is `-1 < 0`. -/
theorem timeLeft_negative_counterexample :
    Reachable (fun d => 0 ≤ d) zeroTimerTicked ∧
    zeroTimerTicked.timeLeft = -1 ∧ zeroTimerTicked.timeLeft < 0 := by
  refine ⟨?_, by decide, by decide⟩
  exact Reachable.ofTick _
    (Reachable.ofSetTimerMode _ true 0 0 (Reachable.ofInit 0) (by norm_num))

lemma exists_four {α : Type} (l : List α) (h : l.length = 4) :
    ∃ a b c d : α, l = [a, b, c, d] := by
  match l, h with
  | [a, b, c, d], _ => exact ⟨a, b, c, d, rfl⟩

lemma analyze_parts_four (a b c d e f g1 h1 : Char) :
    ([(a,e),(b,f),(c,g1),(d,h1)].countP (fun p => p.1 == p.2)
       = ((List.range 4).filter
            (fun i => [a,b,c,d].getD i '?' == [e,f,g1,h1].getD i '!')).length)
    ∧ (([(a,e),(b,f),(c,g1),(d,h1)].filter (fun p => !(p.1 == p.2))).map Prod.fst
       = ((List.range 4).filter
            (fun i => !([a,b,c,d].getD i '?' == [e,f,g1,h1].getD i '!'))).map
          (fun i => [a,b,c,d].getD i '?'))
    ∧ (([(a,e),(b,f),(c,g1),(d,h1)].filter (fun p => !(p.1 == p.2))).map Prod.snd
       = ((List.range 4).filter
            (fun i => !([a,b,c,d].getD i '?' == [e,f,g1,h1].getD i '!'))).map
          (fun i => [e,f,g1,h1].getD i '!')) := by
  have hr : List.range 4 = [0, 1, 2, 3] := rfl
  rw [hr]
  by_cases hae : (a == e) = true <;> by_cases hbf : (b == f) = true <;>
    by_cases hcg : (c == g1) = true <;> by_cases hdh : (d == h1) = true <;>
    simp_all [List.getD]

lemma mem_digitChars_of_isDigit {c : Char} (h : c.isDigit = true) : c ∈ digitChars := by
  simp only [Char.isDigit, Bool.and_eq_true, decide_eq_true_eq] at h
  obtain ⟨h1, h2⟩ := h
  have h1n : 48 ≤ c.val.toNat := h1
  have h2n : c.val.toNat ≤ 57 := h2
  have hc : ∀ d : Char, c.val.toNat = d.val.toNat → c = d :=
    fun d hd => Char.ext (UInt32.toNat.inj hd)
  have hv : c.val.toNat = 48 ∨ c.val.toNat = 49 ∨ c.val.toNat = 50 ∨ c.val.toNat = 51 ∨
      c.val.toNat = 52 ∨ c.val.toNat = 53 ∨ c.val.toNat = 54 ∨ c.val.toNat = 55 ∨
      c.val.toNat = 56 ∨ c.val.toNat = 57 := by omega
  rcases hv with hv | hv | hv | hv | hv | hv | hv | hv | hv | hv
  · rw [hc '0' hv]; decide
  · rw [hc '1' hv]; decide
  · rw [hc '2' hv]; decide
  · rw [hc '3' hv]; decide
  · rw [hc '4' hv]; decide
  · rw [hc '5' hv]; decide
  · rw [hc '6' hv]; decide
  · rw [hc '7' hv]; decide
  · rw [hc '8' hv]; decide
  · rw [hc '9' hv]; decide

lemma sum_dedup_eq_sum_digits (gl tl : List Char) (h : ∀ c ∈ gl, c ∈ digitChars) :
    (gl.dedup.map (fun d => min (gl.count d) (tl.count d))).sum
      = (digitChars.map (fun d => min (gl.count d) (tl.count d))).sum := by
  have hnd : digitChars.Nodup := by decide
  have h1 : (gl.dedup.map (fun d => min (gl.count d) (tl.count d))).sum
      = gl.dedup.toFinset.sum (fun d => min (gl.count d) (tl.count d)) :=
    (List.sum_toFinset _ (List.nodup_dedup gl)).symm
  have h2 : (digitChars.map (fun d => min (gl.count d) (tl.count d))).sum
      = digitChars.toFinset.sum (fun d => min (gl.count d) (tl.count d)) :=
    (List.sum_toFinset _ hnd).symm
  rw [h1, h2]
  apply Finset.sum_subset
  · intro x hx
    rw [List.mem_toFinset] at *
    exact h x (List.mem_dedup.mp (by simpa using hx))
  · intro x hx hnx
    have hxn : x ∉ gl := by
      intro hmem
      exact hnx (by simp [List.mem_toFinset, List.mem_dedup, hmem])
    simp [List.count_eq_zero.mpr hxn]

lemma guessLeft_subset (s g : String) : ∀ c ∈ guessLeft s g, c ∈ g.data := by
  intro c hc
  simp only [guessLeft, List.mem_map, List.mem_filter, pairsOf] at hc
  obtain ⟨p, ⟨hp1, hp3⟩, hp2⟩ := hc
  obtain ⟨x, y⟩ := p
  subst hp2
  exact (List.of_mem_zip hp1).2

/-- C1 (amended): for every 4-digit secret and guess, `analyzeGuess` returns
exactly the spec's exact count (positional equality) and the spec's partial
count (per distinct digit value, `min` of its leftover multiplicities);
`analyzeGuess("1122","1234") = (1,1)`, and `analyzeGuess("1123","1111")`
equals `(2,0)` — positions 0 and 1 are both exact, the spec's worked value
`(1,1)` miscounts its own formula — with surplus duplicates never
double-counted. -/
theorem analyzeGuess_matches_spec :
    (∀ s g : String, isFourDigits s = true → isFourDigits g = true →
      analyzeGuess s g = (specExact s g, specPartCount s g)) ∧
    analyzeGuess "1122" "1234" = (1, 1) ∧
    analyzeGuess "1123" "1111" = (2, 0) := by
  refine ⟨?_, by decide, by decide⟩
  intro s g hs hg
  obtain ⟨hs4, hsd⟩ : s.data.length = 4 ∧ ∀ c ∈ s.data, c.isDigit = true := by
    simpa [isFourDigits, List.all_eq_true] using hs
  obtain ⟨hg4, hgd⟩ : g.data.length = 4 ∧ ∀ c ∈ g.data, c.isDigit = true := by
    simpa [isFourDigits, List.all_eq_true] using hg
  obtain ⟨a, b, c, d, hsdata⟩ := exists_four s.data hs4
  obtain ⟨e, f, g1, h1, hgdata⟩ := exists_four g.data hg4
  have parts := analyze_parts_four a b c d e f g1 h1
  have hpairs : pairsOf s g = [(a,e),(b,f),(c,g1),(d,h1)] := by
    simp [pairsOf, hsdata, hgdata]
  have hexact : (pairsOf s g).countP (fun p => p.1 == p.2) = specExact s g := by
    unfold specExact
    rw [hpairs, hsdata, hgdata]
    exact parts.1
  have htl : targetLeft s g = specSecretLeft s g := by
    unfold targetLeft specSecretLeft
    rw [hpairs, hsdata, hgdata]
    exact parts.2.1
  have hgl : guessLeft s g = specGuessLeft s g := by
    unfold guessLeft specGuessLeft
    rw [hpairs, hsdata, hgdata]
    exact parts.2.2
  have hdig : ∀ c2 ∈ guessLeft s g, c2 ∈ digitChars := fun c2 hc2 =>
    mem_digitChars_of_isDigit (hgd _ (guessLeft_subset s g c2 hc2))
  unfold analyzeGuess
  dsimp only
  simp only [Prod.mk.injEq]
  refine ⟨hexact, ?_⟩
  have hsum := sum_dedup_eq_sum_digits (guessLeft s g) (targetLeft s g) hdig
  rw [hsum, hgl, htl]
  unfold specPartCount
  apply congrArg
  apply List.map_congr_left
  intro d2 hd2
  exact min_comm _ _

/-- C1 counterexample: the spec's second worked example is wrong on the code:
`analyzeGuess("1123","1111")` returns `(exact 2, partial 0)` (positions 0 and
1 both match), not the claimed `(1, 1)`. -/
theorem analyzeGuess_example_counterexample :
    analyzeGuess "1123" "1111" = (2, 0) ∧ ¬ analyzeGuess "1123" "1111" = (1, 1) := by
  exact ⟨by decide, by decide⟩

theorem analyzeGuess_matches_spec_witness :
    analyzeGuess "1122" "1234" = (specExact "1122" "1234", specPartCount "1122" "1234") :=
  analyzeGuess_matches_spec.1 "1122" "1234" (by decide) (by decide)

theorem lose_on_final_attempt_witness :
    (easyRun5.gameOver = false ∧ easyRun5.attempts + 1 = easyRun5.maxAttempts ∧
      isFourDigits "1111" = true ∧ ¬ (analyzeGuess easyRun5.secret "1111").1 = 4) ∧
    ((makeGuess easyRun5 "1111").1.gameOver = true ∧
      (makeGuess easyRun5 "1111").2.2
        = [EngineEvent.gameEnd (GameEndEvent.lose easyRun5.secret),
            EngineEvent.stateChange] ∧
      (∀ g2 : String, makeGuess (makeGuess easyRun5 "1111").1 g2
          = ((makeGuess easyRun5 "1111").1,
              { success := false, message := "Game over. Start new game." }, []))) :=
  ⟨⟨by decide, by decide, by decide, by decide⟩,
    lose_on_final_attempt easyRun5 "1111" (by decide) (by decide) (by decide) (by decide)⟩

theorem makeGuess_validation_order_witness :
    (makeGuess timedOutState "1234"
        = (timedOutState,
            { success := false, message := "Game over. Start new game." }, [])) ∧
    (makeGuess (reset initState 0).1 "12a4"
        = ((reset initState 0).1,
            { success := false, message := "Enter exactly 4 digits!" }, [])) :=
  ⟨(makeGuess_validation_order (fun d => 0 ≤ d) timedOutState "1234"
      (Reachable.ofTick _
        (Reachable.ofSetTimerMode _ true 1 0 (Reachable.ofInit 0) (by norm_num)))).1
      (by decide),
   (makeGuess_validation_order (fun d => 0 ≤ d) (reset initState 0).1 "12a4"
      (Reachable.ofInit 0)).2 (by decide) (by decide)⟩

theorem getState_redacts_secret_witness :
    ((getState (reset initState 0).1).secret = "????") ∧
    ((getState easyRun6).secret = easyRun6.secret) ∧
    ((getState (reset initState 0).1).secret = (getState easyRun0).secret) :=
  ⟨(getState_redacts_secret (reset initState 0).1 easyRun0).1 (by decide),
   (getState_redacts_secret easyRun6 easyRun6).2.1 (by decide),
   (getState_redacts_secret (reset initState 0).1 easyRun0).2.2 (by decide) (by decide)⟩

theorem useHint_budget_witness :
    (useHint timedOutState 3
        = (timedOutState, { success := false, message := "Game is over!" }, [])) ∧
    (useHint (setDifficulty initState "hard" 0).1 2
        = ((setDifficulty initState "hard" 0).1,
            { success := false, message := "No hints remaining!" }, [])) ∧
    ((useHint (reset initState 0).1 6).1
        = { (reset initState 0).1 with
              hintsUsed := (reset initState 0).1.hintsUsed + 1 } ∧
      (useHint (reset initState 0).1 6).2.1.position = some (6 % 4 + 1) ∧
      1 ≤ 6 % 4 + 1 ∧ 6 % 4 + 1 ≤ 4 ∧
      (useHint (reset initState 0).1 6).2.1.digit
        = some ((reset initState 0).1.secret.data.getD (6 % 4) ' ') ∧
      (useHint (reset initState 0).1 6).2.1.remaining
        = some ((reset initState 0).1.maxHints - ((reset initState 0).1.hintsUsed + 1))) :=
  ⟨(useHint_budget timedOutState 3).1 (by decide),
   (useHint_budget (setDifficulty initState "hard" 0).1 2).2.1 (by decide) (by decide),
   (useHint_budget (reset initState 0).1 6).2.2 (by decide) (by decide)⟩

theorem attempts_hints_invariant_witness :
    (reset initState 0).1.attempts ≤ (reset initState 0).1.maxAttempts ∧
    (reset initState 0).1.hintsUsed ≤ (reset initState 0).1.maxHints ∧
    ((reset initState 0).1.gameOver = false →
      (reset initState 0).1.attempts < (reset initState 0).1.maxAttempts) ∧
    (∀ g : String, EngineEvent.gameEnd GameEndEvent.attemptsOut
        ∉ (makeGuess (reset initState 0).1 g).2.2) :=
  attempts_hints_invariant (fun d => 0 ≤ d) (reset initState 0).1 (Reachable.ofInit 0)

theorem timer_tick_spec_witness :
    (tick fiveTimerState).1.timeLeft = fiveTimerState.timeLeft - 1 ∧
    (tick fiveTimerState).2 = [EngineEvent.timerTick (fiveTimerState.timeLeft - 1)] ++
      (if fiveTimerState.timeLeft - 1 ≤ 0
        then [EngineEvent.gameEnd GameEndEvent.timeout] else []) ++
      [EngineEvent.stateChange] ∧
    (fiveTimerState.timeLeft - 1 ≤ 0 →
      (tick fiveTimerState).1.gameOver = true ∧
      (tick fiveTimerState).1.timerActive = false) :=
  timer_tick_spec.1 fiveTimerState (by decide)

theorem timer_bounds_witness :
    (0 ≤ (reset initState 0).1.timerDuration ∧ -1 ≤ (reset initState 0).1.timeLeft) ∧
    0 ≤ (reset initState 0).1.timeLeft :=
  ⟨(timer_bounds _).1 (Reachable.ofInit 0), (timer_bounds _).2 (Reachable.ofInit 0)⟩

theorem guesses_match_attempts_witness :
    ((reset initState 0).1.guesses.length = (reset initState 0).1.attempts ∧
      (reset initState 0).1.guesses.map (fun e => e.attempt)
        = countdownFrom (reset initState 0).1.attempts) ∧
    ((makeGuess easyRun0 "1111").1.attempts = easyRun0.attempts + 1 ∧
      (makeGuess easyRun0 "1111").1.guesses.length = easyRun0.guesses.length + 1 ∧
      ((makeGuess easyRun0 "1111").1.guesses.head?.map (fun e => e.attempt))
          = some ((makeGuess easyRun0 "1111").1.attempts) ∧
      (makeGuess easyRun0 "1111").1.guesses.tail = easyRun0.guesses) ∧
    ((setDifficulty initState "easy" 0).1.attempts = 0 ∧
      (setDifficulty initState "easy" 0).1.guesses = []) :=
  ⟨guesses_match_attempts.1 (fun d => 0 ≤ d) _ (Reachable.ofInit 0),
   guesses_match_attempts.2.1 easyRun0 "1111" (by decide),
   guesses_match_attempts.2.2.2.2 initState "easy" 0 (by decide)⟩

end Game
